/-
  Verification of the invoice classification pipeline
  (src/invoice_classification/classifier.py).

  The development shallowly embeds the classifier's core logic:
  - a small regular-expression engine covering exactly the constructs the
    source's patterns use (literals, classes, escapes, greedy star over a
    character class, bounded repetition over a character class, optional
    atoms, alternation, capturing and non-capturing groups, word boundary),
    with Python `re.search` / `re.finditer` leftmost-greedy semantics;
  - the supplier registry (names, tax IDs and keyword pattern strings kept
    verbatim from the source);
  - `classify_by_nif`, `classify_by_keywords`, `classify_by_template`,
    `extract_invoice_date`, `_normalize_date` and the `classify` decision
    pipeline.

  External capabilities (PDF rasterization, OCR, the SSIM similarity scorer)
  are modelled as inputs: a document is given by the rasterization outcome,
  the full-page OCR text, the header-region OCR text, and the per-template
  similarity score the scorer would produce.  Confidences are rationals.
-/
import Mathlib

set_option maxRecDepth 10000

namespace InvoiceClassifier

/-! ## Character-level helpers -/

/-- Lowercasing of a character sequence, modelling Python `str.lower()`
    (ASCII range; the OCR texts and all registry patterns are lowercase). -/
def lowerL (s : List Char) : List Char := s.map Char.toLower

/-- Is `pre` a prefix of `s`?  Used for substring containment. -/
def prefixOf : List Char → List Char → Bool
  | [], _ => true
  | _ :: _, [] => false
  | a :: pre, b :: s => a == b && prefixOf pre s

/-- Substring containment, modelling Python's `needle in haystack`. -/
def isSubstr (needle : List Char) : List Char → Bool
  | [] => prefixOf needle []
  | c :: t => prefixOf needle (c :: t) || isSubstr needle t

/-- Decimal value of a digit string (all captures fed to `int()` in the
    source are produced by `\d` repetitions, so this never sees non-digits). -/
def digitsToNat (l : List Char) : Nat := l.foldl (fun a c => a * 10 + (c.toNat - 48)) 0

/-! ## Regular-expression engine

The source uses Python `re` with a limited pattern vocabulary.  `CAtom` is a
single-character matcher, `RE` the abstract syntax.  Stars and bounded
repetitions only ever apply to single-character atoms in the source's
patterns, which the syntax mirrors (this keeps matching structurally
recursive and executable). -/

/-- A single-character matcher: a literal, `\d`, `\s`, or `.`
    (any character except a newline, Python's default `.`). -/
inductive CAtom where
  | lit : Char → CAtom
  | digit : CAtom
  | space : CAtom
  | anyNl : CAtom

/-- Regular expression syntax.  `starC`/`repC` are the Kleene star and the
    `{lo,hi}` repetition restricted to character classes; `grp` is a
    capturing group carrying its (1-based) Python group number; `wb` is the
    word boundary `\b`. -/
inductive RE where
  | eps : RE
  | cc : List CAtom → RE
  | seq : RE → RE → RE
  | alt : RE → RE → RE
  | starC : List CAtom → RE
  | repC : List CAtom → Nat → Nat → RE
  | opt : RE → RE
  | grp : Nat → RE → RE
  | wb : RE

/-- Does `a` match character `c`?  `ic` is the `re.IGNORECASE` flag
    (pattern characters in the source are lowercase, so the text character
    is lowercased before comparing). -/
def catomMatch (ic : Bool) (a : CAtom) (c : Char) : Bool :=
  match a with
  | .lit x => (if ic then c.toLower else c) == x
  | .digit => c.isDigit
  | .space => c == ' ' || c == '\t' || c == '\n' || c == '\r' || c == '\x0b' || c == '\x0c'
  | .anyNl => c != '\n'

/-- Does the character class `cl` match `c`? -/
def clsMatch (ic : Bool) (cl : List CAtom) (c : Char) : Bool :=
  cl.any (fun a => catomMatch ic a c)

/-- Length of the maximal prefix of `s` whose characters all match `cl`
    (the greedy upper bound for `starC`/`repC`). -/
def runLen (ic : Bool) (cl : List CAtom) : List Char → Nat
  | [] => 0
  | c :: t => if clsMatch ic cl c then runLen ic cl t + 1 else 0

/-- Captured groups: group number ↦ captured character sequence. -/
abbrev Caps := List (Nat × List Char)

/-- Result of a match attempt: the unconsumed suffix and the captures. -/
abbrev MRes := Option (List Char × Caps)

/-- The character preceding the current position after consuming `n`
    characters of `s` (`p` is the character before `s`). -/
def prevAfter (p : Option Char) (s : List Char) (n : Nat) : Option Char :=
  if n == 0 then p else (s.take n).getLast?

/-- A word character for `\b` purposes. -/
def wordChar (c : Char) : Bool := c.isAlphanum || c == '_'

/-- Backtracking driver for greedy repetition of a character class: try
    consuming `n` characters first, then `n-1`, …, down to `lo`. -/
def tryCnt (k : Option Char → List Char → Caps → MRes) (p : Option Char) (s : List Char)
    (caps : Caps) (lo : Nat) : Nat → MRes
  | 0 => if lo == 0 then k p s caps else none
  | n + 1 =>
    if n + 1 < lo then none
    else
      match k (prevAfter p s (n + 1)) (s.drop (n + 1)) caps with
      | some r => some r
      | none => tryCnt k p s caps lo n

/-- Backtracking matcher in continuation-passing style.  `p` is the
    character just before the current position (for `\b`), `s` the
    remaining input, `k` the continuation.  Alternation prefers the left
    branch, `opt` and repetitions are greedy — Python `re` semantics. -/
def reM (ic : Bool) : RE → Option Char → List Char → Caps →
    (Option Char → List Char → Caps → MRes) → MRes
  | .eps, p, s, caps, k => k p s caps
  | .cc cl, _, s, caps, k =>
    (match s with
     | [] => none
     | c :: t => if clsMatch ic cl c then k (some c) t caps else none)
  | .seq a b, p, s, caps, k =>
    reM ic a p s caps (fun p2 s2 c2 => reM ic b p2 s2 c2 k)
  | .alt a b, p, s, caps, k =>
    (match reM ic a p s caps k with
     | some r => some r
     | none => reM ic b p s caps k)
  | .starC cl, p, s, caps, k => tryCnt k p s caps 0 (runLen ic cl s)
  | .repC cl lo hi, p, s, caps, k =>
    (let n := min hi (runLen ic cl s)
     if n < lo then none else tryCnt k p s caps lo n)
  | .opt a, p, s, caps, k =>
    (match reM ic a p s caps k with
     | some r => some r
     | none => k p s caps)
  | .grp i a, p, s, caps, k =>
    reM ic a p s caps (fun p2 s2 c2 => k p2 s2 ((i, s.take (s.length - s2.length)) :: c2))
  | .wb, p, s, caps, k =>
    (let b1 := match p with | some c => wordChar c | none => false
     let b2 := match s with | c :: _ => wordChar c | [] => false
     if b1 != b2 then k p s caps else none)

/-- A match: absolute start position, absolute end position, captures. -/
abbrev Match := Nat × Nat × Caps

/-- Leftmost search from position `pos` (`p` the character before it),
    modelling `re.search`: attempt the pattern at each successive start
    position and return the first (leftmost, then greedy-first) match. -/
def reSearchFrom (ic : Bool) (r : RE) : Option Char → List Char → Nat → Option Match
  | p, [], pos =>
    (match reM ic r p [] [] (fun _ s2 caps => some (s2, caps)) with
     | some (_, caps) => some (pos, pos, caps)
     | none => none)
  | p, c :: t, pos =>
    (match reM ic r p (c :: t) [] (fun _ s2 caps => some (s2, caps)) with
     | some (rest, caps) => some (pos, pos + ((c :: t).length - rest.length), caps)
     | none => reSearchFrom ic r (some c) t (pos + 1))

/-- Non-overlapping scan, modelling `re.finditer`: after a match ending at
    `en`, continue from `en` (or one further on an empty match).  `fuel`
    bounds the number of matches (input length + 1 suffices). -/
def findIterGo (ic : Bool) (r : RE) : Nat → Option Char → List Char → Nat → List Match
  | 0, _, _, _ => []
  | fuel + 1, p, s, pos =>
    match reSearchFrom ic r p s pos with
    | none => []
    | some (st, en, caps) =>
      let adv := (if en > st then en else st + 1) - pos
      (st, en, caps) ::
        (if adv == 0 then []
         else findIterGo ic r fuel (prevAfter p s adv) (s.drop adv) (pos + adv))

/-! ## Pattern parser

The registry keeps the source's pattern strings verbatim; this recursive
descent parser turns them into `RE`.  It covers exactly the constructs
appearing in the source: literals, `.`, `.*`, `\d`, `\s`, `\b`, escaped
literals, character classes (literal members and `\s`/`\d`), `*`, `?`,
`{n}` and `{lo,hi}` on character classes, `(...)` and `(?:...)` groups, and
`|` alternation.  Ranges inside classes are not used by the source and are
read as literals.  A pattern outside this vocabulary fails to parse and
then never matches. -/

/-- '\x7b', the opening brace character. -/
def lbraceC : Char := Char.ofNat 123

/-- '\x7d', the closing brace character. -/
def rbraceC : Char := Char.ofNat 125

/-- Read a decimal number off the front of the input. -/
def readNatGo : List Char → Nat → Nat × List Char
  | [], acc => (acc, [])
  | c :: t, acc => if c.isDigit then readNatGo t (acc * 10 + (c.toNat - 48)) else (acc, c :: t)

/-- Read a decimal number (at least one digit). -/
def readNat : List Char → Option (Nat × List Char)
  | c :: t => if c.isDigit then some (readNatGo t (c.toNat - 48)) else none
  | [] => none

/-- Parse the body of a character class, up to the closing `]`. -/
def parseCls : List Char → Option (List CAtom × List Char)
  | [] => none
  | c :: t =>
    if c == ']' then some ([], t)
    else if c == '\\' then
      match t with
      | [] => none
      | e :: t2 =>
        let a := if e == 's' then CAtom.space else if e == 'd' then CAtom.digit else CAtom.lit e
        match parseCls t2 with
        | some (cl, rest) => some (a :: cl, rest)
        | none => none
    else
      match parseCls t with
      | some (cl, rest) => some (CAtom.lit c :: cl, rest)
      | none => none

/-- An atom as parsed: either a bare character class (eligible for `*` and
    `{…}` postfixes) or a general sub-expression. -/
def atomRE : Sum (List CAtom) RE → RE
  | .inl cl => RE.cc cl
  | .inr r => r

/-- Apply an optional postfix quantifier (`*`, `?`, `{n}`, `{lo,hi}`) to a
    freshly parsed atom. -/
def applyPost (a : Sum (List CAtom) RE) (s : List Char) : Option (RE × List Char) :=
  match s with
  | '*' :: t =>
    (match a with
     | .inl cl => some (RE.starC cl, t)
     | .inr _ => none)
  | '?' :: t => some (RE.opt (atomRE a), t)
  | c :: t =>
    if c == lbraceC then
      match a with
      | .inr _ => none
      | .inl cl =>
        match readNat t with
        | none => none
        | some (lo, t2) =>
          match t2 with
          | ',' :: t3 =>
            (match readNat t3 with
             | some (hi, t4) =>
               match t4 with
               | d :: t5 => if d == rbraceC then some (RE.repC cl lo hi, t5) else none
               | [] => none
             | none => none)
          | d :: t3 => if d == rbraceC then some (RE.repC cl lo lo, t3) else none
          | [] => none
    else some (atomRE a, s)
  | [] => some (atomRE a, [])

/-- Parser modes: alternation level, sequence level, single atom. -/
inductive PM where
  | palt : PM
  | pseq : PM
  | patom : PM

/-- Does the input stop a sequence (end, `)`, or `|`)? -/
def stopTok : List Char → Bool
  | [] => true
  | c :: _ => c == ')' || c == '|'

/-- The recursive-descent parser.  `fuel` decreases on every call (so the
    recursion is structural); `gi` is the next capturing-group number. -/
def parseP : Nat → PM → Nat → List Char → Option (RE × Nat × List Char)
  | 0, _, _, _ => none
  | fuel + 1, PM.palt, gi, s =>
    (match parseP fuel PM.pseq gi s with
     | none => none
     | some (r, gi2, s2) =>
       match s2 with
       | '|' :: t =>
         (match parseP fuel PM.palt gi2 t with
          | some (r2, gi3, s3) => some (RE.alt r r2, gi3, s3)
          | none => none)
       | _ => some (r, gi2, s2))
  | fuel + 1, PM.pseq, gi, s =>
    if stopTok s then some (RE.eps, gi, s)
    else
      match parseP fuel PM.patom gi s with
      | none => none
      | some (r, gi2, s2) =>
        if stopTok s2 then some (r, gi2, s2)
        else
          match parseP fuel PM.pseq gi2 s2 with
          | some (r2, gi3, s3) => some (RE.seq r r2, gi3, s3)
          | none => none
  | fuel + 1, PM.patom, gi, s =>
    match s with
    | '(' :: '?' :: ':' :: t =>
      (match parseP fuel PM.palt gi t with
       | some (r, gi2, s2) =>
         match s2 with
         | ')' :: t2 => (applyPost (Sum.inr r) t2).map (fun x => (x.1, gi2, x.2))
         | _ => none
       | none => none)
    | '(' :: t =>
      (match parseP fuel PM.palt (gi + 1) t with
       | some (r, gi2, s2) =>
         match s2 with
         | ')' :: t2 => (applyPost (Sum.inr (RE.grp gi r)) t2).map (fun x => (x.1, gi2, x.2))
         | _ => none
       | none => none)
    | '[' :: t =>
      (match parseCls t with
       | some (cl, t2) => (applyPost (Sum.inl cl) t2).map (fun x => (x.1, gi, x.2))
       | none => none)
    | '\\' :: e :: t =>
      if e == 'd' then (applyPost (Sum.inl [CAtom.digit]) t).map (fun x => (x.1, gi, x.2))
      else if e == 's' then (applyPost (Sum.inl [CAtom.space]) t).map (fun x => (x.1, gi, x.2))
      else if e == 'b' then (applyPost (Sum.inr RE.wb) t).map (fun x => (x.1, gi, x.2))
      else (applyPost (Sum.inl [CAtom.lit e]) t).map (fun x => (x.1, gi, x.2))
    | '.' :: t => (applyPost (Sum.inl [CAtom.anyNl]) t).map (fun x => (x.1, gi, x.2))
    | c :: t =>
      if c == ')' || c == '|' || c == '*' || c == '?' then none
      else (applyPost (Sum.inl [CAtom.lit c]) t).map (fun x => (x.1, gi, x.2))
    | [] => none

/-- Parse a whole pattern string (must consume all input). -/
def parseRE (pat : String) : Option RE :=
  match parseP (4 * pat.length + 16) PM.palt 1 pat.data with
  | some (r, _, []) => some r
  | _ => none

/-- `re.search(pat, s, flags)`: parse then search; a pattern outside the
    supported vocabulary never matches. -/
def reSearchS (ic : Bool) (pat : String) (s : List Char) : Option Match :=
  match parseRE pat with
  | some r => reSearchFrom ic r none s 0
  | none => none

/-- `re.finditer(pat, s)`: all non-overlapping matches, leftmost first. -/
def findAllS (ic : Bool) (pat : String) (s : List Char) : List Match :=
  match parseRE pat with
  | some r => findIterGo ic r (s.length + 1) none s 0
  | none => []

/-- Look up capture group `i` of a match. -/
def getG (caps : Caps) (i : Nat) : Option (List Char) :=
  (caps.find? (fun x => x.1 == i)).map (fun x => x.2)

/-! ## Data model -/

/-- Profile for a known supplier (`SupplierProfile` in the source).  Only
    the fields the classification logic reads are embedded: `display_name`
    is presentation-only, `logo_template`/`header_region` feed the image
    pipeline, which is modelled through per-template similarity scores. -/
structure SupplierProfile where
  name : String
  nif : String
  keywords : List String

/-- A diagnostic value stored in a result's `details` dict. -/
inductive DVal where
  | str : String → DVal
  | num : ℚ → DVal
  | strList : List String → DVal
  | dict : List (String × DVal) → DVal

/-- Result of invoice classification (`ClassificationResult`). -/
structure ClassificationResult where
  supplier : String
  confidence : ℚ
  method : String
  details : List (String × DVal)
  invoice_date : Option String := none
  ocr_text : String := ""

/-- A document as `classify` sees it, with the external capabilities
    resolved: `rasterError` is `some msg` when PDF→image conversion fails;
    `text` is the full-page OCR output; `header_text` the header-region OCR
    output; `templScores` gives, per loaded template in load order, the SSIM
    score the similarity scorer produces on this document's header crop
    (`none` when the scorer raises and the entry is skipped). -/
structure DocInput where
  rasterError : Option String
  text : String
  header_text : String
  templScores : List (String × Option ℚ)

/-! ## Supplier registry (`InvoiceClassifier.SUPPLIERS`)

Python dicts iterate in insertion order, so the registry is a list in the
source's declaration order; keys equal the profiles' `name` fields. -/

def SUPPLIERS : List SupplierProfile := [
  ⟨"teofilo", "500099871", ["teofilo", "fontainhas", "messines", "8375-127", "teofilo.pt"]⟩,
  ⟨"soares", "501496912", ["soares", "garrafeira", "wine.*spirits", "40.*anos", "garrafeirasoares.pt"]⟩,
  ⟨"garcias", "501141243", ["garcias", "wines.*spirits", "algoz", "8365-085", "garcias.pt"]⟩,
  ⟨"jmv", "503858471", ["jose.*maria.*vieira", "rio.*tinto", "4439-909"]⟩,
  ⟨"justdrinks", "508976464", ["justdrinks", "quatro.*estradas", "8100-287", "justdrinks.pt"]⟩,
  ⟨"novadis", "504350900", ["novadis", "alfarrobeira", "vila.*franca.*xira", "centralcervejas"]⟩,
  ⟨"absolutlyvintage", "516001906", ["absolutly.*vintage", "alcantarilha", "8365-028", "rogel"]⟩,
  ⟨"magniberia", "515102334", ["magniberia", "venko", "tavira", "8800-318", "magniberia.pt"]⟩,
  ⟨"teofilo_gd", "500099871", ["guia.*devolu", "produto.*reclamado", "produto.*devolvido"]⟩,
  ⟨"teofilo_nc", "500099871", ["nota.*cr[ée]dito", "c\\s*caau"]⟩,
  ⟨"intermarche", "508162378", ["intermarche", "sodiquarteira", "vilamoura", "supermercados"]⟩,
  ⟨"continente", "502011475", ["continente", "hipermercados", "sonae"]⟩,
  ⟨"moeve", "500223840", ["moeve", "operacoes.*retalho"]⟩,
  ⟨"galp", "500697370", ["galp", "petróleos", "energia"]⟩,
  ⟨"cepsa", "510748430", ["cepsa", "vilacomb", "combustiveis"]⟩,
  ⟨"makro_gas", "505337053", ["carbusol", "makro.*fetha"]⟩,
  ⟨"action", "517247739", ["action", "storeops.*portugal"]⟩,
  ⟨"burgerking", "504661264", ["burger.*king", "whopper"]⟩,
  ⟨"mourapao", "518468020", ["mourapao", "sailor.*corner", "grupo.*mourapao"]⟩,
  ⟨"worten", "503630330", ["worten", "equipamentos.*lar"]⟩,
  ⟨"wells", "508037514", ["wells", "pharmacontinente"]⟩,
  ⟨"matchpoint", "516585800", ["matchpoint", "premier.*sports"]⟩,
  ⟨"overseas", "509943888", ["overseas", "tavagueira"]⟩,
  ⟨"makro", "502030712", ["makro", "cash.*carry"]⟩,
  ⟨"pingodoce", "500829093", ["pingo.*doce", "distribuição.*alimentar"]⟩,
  ⟨"lidl", "503340855", ["lidl", "www\\.lidl\\.pt"]⟩,
  ⟨"inframoura", "504915266", ["inframoura", "águas.*algarve", "saneamento"]⟩,
  ⟨"constamarina", "504147480", ["constamarina", "drogaria.*nauticos"]⟩,
  ⟨"constantino", "500072205", ["constantino", "rocha.*amador"]⟩,
  ⟨"papelnet", "504064282", ["papelnet", "papelaria"]⟩,
  ⟨"osakasushi", "518794482", ["osaka", "meridiano.*suculento"]⟩,
  ⟨"tribulum", "515892327", ["tribulum", "all.*over.*mountain"]⟩,
  ⟨"zorba", "518564410", ["zorba", "meadows.*heaven"]⟩,
  ⟨"sinfonia", "518636766", ["sinfonia", "iguarias"]⟩,
  ⟨"eurolatina", "502781106", ["eurolatina", "diniz.*nota.*loureiro"]⟩,
  ⟨"brisa", "514166096", ["brisa", "areas.*servico"]⟩,
  ⟨"ikea", "505416654", ["ikea", "moveis.*decoracao"]⟩,
  ⟨"leroy", "506848556", ["leroy.*merlin", "bricolage"]⟩,
  ⟨"staples", "503789372", ["staples", "equipamento.*escritorio"]⟩,
  ⟨"note", "517309505", ["note", "mundo.*note", "livraria.*papelaria"]⟩,
  ⟨"partyland", "509199429", ["partyland", "solucoes.*alegres"]⟩,
  ⟨"alparques", "514916494", ["alparques", "parque.*estac"]⟩,
  ⟨"pizzahut", "502604735", ["pizza.*hut", "iberusa"]⟩,
  ⟨"mcdonalds", "504416014", ["mcdonald", "magic.*empreend"]⟩,
  ⟨"dominos", "513146051", ["domino", "daufood"]⟩,
  ⟨"apaisagem", "510577199", ["paisagem", "wine.*glass", "churrasqueira"]⟩,
  ⟨"a4tabacaria", "502749423", ["a4.*tabacaria", "tabacarias.*lda"]⟩,
  ⟨"anticapizzeria", "517973634", ["antica.*pizzeria", "centralholding"]⟩,
  ⟨"italianrepublic", "503254435", ["italian.*republic", "estrela.*guia"]⟩,
  ⟨"reichurrasco", "515553565", ["rei.*churrasco", "titulo.*amistoso"]⟩,
  ⟨"solarfarelo", "504055224", ["solar.*farelo", "dois.*dias.*hotelaria"]⟩,
  ⟨"botanico", "516823961", ["botanico", "quinta.*lago"]⟩,
  ⟨"adegamonte", "", ["adega.*monte", "natureza.*prato"]⟩,
  ⟨"afamilia", "508179047", ["familia", "pizzaria.*artesanal.*brasileira"]⟩,
  ⟨"artisan", "515652946", ["artisan", "luxury.*ingredient", "old.*village"]⟩,
  ⟨"bagga", "508879990", ["bagga", "pronto.*gostar", "bb.*food"]⟩,
  ⟨"maxidrive", "515865672", ["maxidrive", "galaxialaranjada"]⟩,
  ⟨"padoca", "000000000", ["padoca", "costa.*leitas", "las.*arcos"]⟩,
  ⟨"gildadasilva", "219329976", ["gilda.*silva", "multiservicos.*solbelo"]⟩,
  ⟨"robalo", "500654573", ["robalo", "utilidades.*dom.sticas", "hoteleiras", "robalo-sa\\.com"]⟩,
  ⟨"seminoshopping", "247388858", ["semino.*shopping", "chen.*shuang"]⟩,
  ⟨"orientalshopping", "514703873", ["oriental.*shopping", "orientalefeito"]⟩,
  ⟨"shoppingloule", "509713955", ["shopping.*loule", "leia.*creia"]⟩,
  ⟨"bp", "507161058", ["\\bbp\\b", "bp.*quarteira", "bp.*vilamoura"]⟩,
  ⟨"kiabi", "000000000", ["kiabi", "fidelidade"]⟩,
  ⟨"brisatoll", "502790624", ["brisa.*concessao", "bcr", "portagem"]⟩]

/-! ## Tax-ID classification (`classify_by_nif`) -/

/-- Suppliers sharing one tax ID but distinguished by document type;
    the `SPECIAL_CASES` table inside `classify_by_nif`. -/
def SPECIAL_CASES : List (String × List (String × List String)) :=
  [("500099871",
    [("teofilo_gd", ["guia.*devolu", "produto.*reclamado", "produto.*devolvido"]),
     ("teofilo_nc", ["nota.*cr[ée]dito", "c\\s*caau"]),
     ("teofilo", [])])]

/-- Split into chunks of three characters,
    `[nif[i:i+3] for i in range(0, len(nif), 3)]`. -/
def chunks3 : List Char → List (List Char)
  | [] => []
  | [a] => [[a]]
  | [a, b] => [[a, b]]
  | a :: b :: c :: t => [a, b, c] :: chunks3 t

/-- Join chunks with single spaces (`' '.join(...)`). -/
def joinSpace : List (List Char) → List Char
  | [] => []
  | [x] => x
  | x :: y :: t => x ++ ' ' :: joinSpace (y :: t)

/-- The space-grouped surface form of a tax ID, e.g. `501 496 912`. -/
def spacedNif (nif : String) : String := (joinSpace (chunks3 nif.data)).asString

/-- The four textual surface forms probed for a tax ID (`nif_patterns`). -/
def nifPatterns (nif : String) : List String :=
  [nif, spacedNif nif, "pt" ++ nif, "pt " ++ nif]

/-- Result for a special-case variant matched through its keywords. -/
def specialResult (nif sname : String) : ClassificationResult :=
  ⟨sname, 0.95, "nif",
    [("matched_nif", DVal.str nif), ("special_type", DVal.str sname)], none, ""⟩

/-- Result for the keyword-less default variant of a special-case tax ID. -/
def specialDefault (nif sname : String) : ClassificationResult :=
  ⟨sname, 0.95, "nif", [("matched_nif", DVal.str nif)], none, ""⟩

/-- Walk a special-case variant list in order: an entry with keywords wins
    if any keyword pattern matches the text; a keyword-less entry is the
    default and wins unconditionally. -/
def specialLoop (textL : List Char) (nif : String) :
    List (String × List String) → Option ClassificationResult
  | [] => none
  | (sname, kws) :: rest =>
    if ¬kws.isEmpty then
      if kws.any (fun kw => (reSearchS true kw textL).isSome) then
        some (specialResult nif sname)
      else specialLoop textL nif rest
    else some (specialDefault nif sname)

/-- Try each tax-ID surface form in order; on the first form contained in
    the text, dispatch to the special-case table or return the plain
    registry entry. -/
def patLoop (textL : List Char) (p : SupplierProfile) : List String → Option ClassificationResult
  | [] => none
  | pat :: rest =>
    if isSubstr (lowerL pat.data) textL then
      match SPECIAL_CASES.find? (fun sc => sc.1 == p.nif) with
      | some sc =>
        (match specialLoop textL p.nif sc.2 with
         | some r => some r
         | none => patLoop textL p rest)
      | none =>
        some ⟨p.name, 0.95, "nif", [("matched_nif", DVal.str p.nif)], none, ""⟩
    else patLoop textL p rest

/-- One registry entry's step of the tax-ID scan: special-case variants are
    skipped (handled via the table), as are entries without a valid
    (≥ 9 characters) tax ID. -/
def nifEntryStep (textL : List Char) (p : SupplierProfile) : Option ClassificationResult :=
  if p.name = "teofilo_gd" ∨ p.name = "teofilo_nc" then none
  else if p.nif = "" ∨ p.nif.length < 9 then none
  else patLoop textL p (nifPatterns p.nif)

/-- The registry scan of `classify_by_nif`. -/
def nifLoop (textL : List Char) : List SupplierProfile → Option ClassificationResult
  | [] => none
  | p :: rest =>
    match nifEntryStep textL p with
    | some r => some r
    | none => nifLoop textL rest

/-- `classify_by_nif(text)`: classify by finding a supplier tax ID in the
    OCR text. -/
def classify_by_nif (text : String) : Option ClassificationResult :=
  nifLoop text.data SUPPLIERS

/-! ## Keyword classification (`classify_by_keywords`) -/

/-- One supplier's step of the best-score fold: count matching keyword
    regexes, score `matches/total`, and keep the entry on a strictly
    greater score (so the first entry wins ties). -/
def kwFoldStep (textL : List Char) (acc : Option String × ℚ × List String)
    (p : SupplierProfile) : Option String × ℚ × List String :=
  let matchedKws := p.keywords.filter (fun kw => (reSearchS true kw textL).isSome)
  if ¬matchedKws.isEmpty then
    let score : ℚ := (matchedKws.length : ℚ) / (p.keywords.length : ℚ)
    if score > acc.2.1 then (some p.name, score, matchedKws) else acc
  else acc

/-- The `(best_match, best_score, best_matches)` triple after scanning the
    whole registry. -/
def keywordBest (textL : List Char) : Option String × ℚ × List String :=
  SUPPLIERS.foldl (kwFoldStep textL) (none, 0, [])

/-- `classify_by_keywords(text)`: accept the best entry only when at least
    30% of its keywords matched; confidence `min(0.9, 0.5 + score*0.4)`. -/
def classify_by_keywords (text : String) : Option ClassificationResult :=
  let b := keywordBest text.data
  match b.1 with
  | some name =>
    if b.2.1 ≥ 0.3 then
      some ⟨name, min 0.9 (0.5 + b.2.1 * 0.4), "keywords",
        [("matched_keywords", DVal.strList b.2.2), ("score", DVal.num b.2.1)], none, ""⟩
    else none
  | none => none

/-! ## Date extraction (`extract_invoice_date` / `_normalize_date`) -/

/-- Portuguese month abbreviations alternation (`pt_months` in the source). -/
def pt_months : String := "(jan|fev|mar|abr|mai|jun|jul|ago|set|out|nov|dez)"

/-- The six date grammars with their format tags, in the source's fixed
    priority order (`date_patterns`).  Braces of `re` repetitions are
    written with `\x7b`/`\x7d` escapes. -/
def date_patterns : List (String × String) := [
  ("(\\d\x7b1,2\x7d)\\s*[-–]\\s*" ++ pt_months ++ "\\s*[-–]?\\s*(\\d\x7b2,4\x7d)", "pt_month"),
  ("(\\d\x7b4\x7d)-(\\d\x7b1,2\x7d)-(\\d\x7b1,2\x7d)", "ymd"),
  ("(\\d\x7b4\x7d)/(\\d\x7b1,2\x7d)/(\\d\x7b1,2\x7d)", "ymd"),
  ("(\\d\x7b1,2\x7d)/(\\d\x7b1,2\x7d)/(\\d\x7b4\x7d)", "ambiguous"),
  ("(\\d\x7b1,2\x7d)-(\\d\x7b1,2\x7d)-(\\d\x7b4\x7d)", "dmy"),
  ("(\\d\x7b1,2\x7d)\\.(\\d\x7b1,2\x7d)\\.(\\d\x7b4\x7d)", "dmy")]

/-- Issue-date label patterns, highest priority first (`priority_keywords`). -/
def priority_keywords : List String := [
  "data\\s*(?:de\\s*)?emiss[ãa]o\\s*[:\\s]*",
  "data\\s*(?:do\\s*)?documento\\s*[:\\s]*",
  "data\\s*(?:da\\s*)?fact?ura\\s*[:\\s]*",
  "emitido\\s*(?:em|a)?\\s*[:\\s]*"]

/-- Due/payment-date markers whose vicinity disqualifies a date
    (`avoid_keywords`). -/
def avoid_keywords : List String := ["vencimento", "pagamento", "prazo"]

/-- Portuguese month abbreviation table (`pt_month_map`). -/
def pt_month_map : List (String × Nat) := [
  ("jan", 1), ("fev", 2), ("mar", 3), ("abr", 4), ("mai", 5), ("jun", 6),
  ("jul", 7), ("ago", 8), ("set", 9), ("out", 10), ("nov", 11), ("dez", 12)]

/-- The standard days-in-month table with February capped at 29
    (`days_in_month`, index 0 unused). -/
def days_in_month : List Nat := [0, 31, 29, 31, 30, 31, 30, 31, 31, 30, 31, 30, 31]

/-- The character for decimal digit `n`. -/
def digitChar (n : Nat) : Char := Char.ofNat (48 + n)

/-- Zero-padded two-digit rendering, modelling `f"{n:02d}"` for `n ≤ 99`
    (months and days here are at most 31). -/
def pad2 (n : Nat) : List Char := [digitChar (n / 10 % 10), digitChar (n % 10)]

/-- Zero-padded four-digit rendering, modelling `f"{n:04d}"` for
    `n ≤ 9999` (years here are at most 2030 after validation). -/
def pad4 (n : Nat) : List Char :=
  [digitChar (n / 1000 % 10), digitChar (n / 100 % 10), digitChar (n / 10 % 10),
   digitChar (n % 10)]

/-- The `YYYYMMDD` output string `f"{year:04d}{month:02d}{day:02d}"`. -/
def dateString (year month day : Nat) : String :=
  (pad4 year ++ pad2 month ++ pad2 day).asString

/-- The validity gate and rendering shared by every branch of
    `_normalize_date`: year in [2020, 2030], month in [1, 12], day in
    [1, 31] and at most the month's table entry; any failure yields `none`. -/
def validDate (year month day : Nat) : Option String :=
  if ¬(2020 ≤ year ∧ year ≤ 2030 ∧ 1 ≤ month ∧ month ≤ 12 ∧ 1 ≤ day ∧ day ≤ 31) then none
  else if days_in_month.getD month 0 < day then none
  else some (dateString year month day)

/-- `_normalize_date(match, date_format)`: convert a grammar match (its
    three capture groups) to `YYYYMMDD`.  A missing group, unknown month
    abbreviation or failed validation yields `none`, never an error. -/
def _normalize_date (caps : Caps) (date_format : String) : Option String :=
  match getG caps 1, getG caps 2, getG caps 3 with
  | some g1, some g2, some g3 =>
    if date_format = "pt_month" then
      let day := digitsToNat g1
      match pt_month_map.find? (fun e => e.1 == (lowerL g2).asString) with
      | none => none
      | some e =>
        let y0 := digitsToNat g3
        let year := if y0 < 100 then 2000 + y0 else y0
        validDate year e.2 day
    else if date_format = "ymd" then
      validDate (digitsToNat g1) (digitsToNat g2) (digitsToNat g3)
    else if date_format = "dmy" then
      validDate (digitsToNat g3) (digitsToNat g2) (digitsToNat g1)
    else if date_format = "ambiguous" then
      let first := digitsToNat g1
      let second := digitsToNat g2
      let year := digitsToNat g3
      if 12 < first ∧ second ≤ 12 then validDate year second first
      else if 12 < second ∧ first ≤ 12 then validDate year first second
      else validDate year second first
    else none
  | _, _, _ => none

/-- Scan a 30-character window after a priority label: first grammar (in
    the fixed order) whose first match in the window normalizes. -/
def windowDate (w : List Char) : List (String × String) → Option String
  | [] => none
  | (pat, fmt) :: rest =>
    match reSearchS false pat w with
    | some m =>
      (match _normalize_date m.2.2 fmt with
       | some d => some d
       | none => windowDate w rest)
    | none => windowDate w rest

/-- First pass: dates within 30 characters after the first occurrence of a
    priority issue-date label. -/
def priorityDate (tl : List Char) : List String → Option String
  | [] => none
  | kw :: rest =>
    match reSearchS false kw tl with
    | some m =>
      (match windowDate ((tl.drop m.2.1).take 30) date_patterns with
       | some d => some d
       | none => priorityDate tl rest)
    | none => priorityDate tl rest

/-- Does the 50-character context before position `start` contain an avoid
    keyword (due/payment-date marker)? -/
def avoidNear (tl : List Char) (start : Nat) : Bool :=
  let sp := start - 50
  let ctx := (tl.drop sp).take (start - sp)
  avoid_keywords.any (fun kw => (reSearchS false kw ctx).isSome)

/-- Second pass candidate collection (`all_dates`): every grammar match in
    the whole text, skipping matches preceded by an avoid keyword, keeping
    those that normalize — as the source's nested append loop. -/
def pass2Dates (tl : List Char) : List String :=
  date_patterns.foldl
    (fun acc pf =>
      (findAllS false pf.1 tl).foldl
        (fun acc2 m =>
          if avoidNear tl m.1 then acc2
          else
            match _normalize_date m.2.2 pf.2 with
            | some d => acc2 ++ [d]
            | none => acc2)
        acc)
    []

/-- Lexicographic (code-point) strict comparison of character sequences,
    Python's `<` on `str`. -/
def lexLt : List Char → List Char → Bool
  | [], [] => false
  | [], _ :: _ => true
  | _ :: _, [] => false
  | a :: as, b :: bs => if a < b then true else if b < a then false else lexLt as bs

/-- `min` of a nonempty string list (Python `min`, lexicographic, first
    minimum wins); `""` on the empty list, which the caller guards
    against. -/
def minString : List String → String
  | [] => ""
  | d :: ds => ds.foldl (fun a b => if lexLt b.data a.data then b else a) d

/-- Third pass: the first match of any grammar anywhere, normalized —
    returned directly even when normalization fails. -/
def fallbackDate (tl : List Char) : List (String × String) → Option String
  | [] => none
  | (pat, fmt) :: rest =>
    match reSearchS false pat tl with
    | some m => _normalize_date m.2.2 fmt
    | none => fallbackDate tl rest

/-- `extract_invoice_date(text)`: the three passes in order — priority
    labels, earliest non-due date, any date at all. -/
def extract_invoice_date (text : String) : Option String :=
  let tl := lowerL text.data
  match priorityDate tl priority_keywords with
  | some d => some d
  | none =>
    match pass2Dates tl with
    | [] => fallbackDate tl date_patterns
    | d :: ds => some (minString (d :: ds))

/-! ## Template classification (`classify_by_template`)

The SSIM score each loaded template attains on this document's header crop
is an input (`none` for a template whose comparison raises and is skipped);
the function keeps the strict maximum and applies the 0.40 acceptance
threshold exactly as the source. -/

/-- The `(best_match, best_score)` pair of the template scan: strict
    maximum over the loaded templates' similarity scores, skipping entries
    whose comparison raised. -/
def templateBest (templates : List (String × Option ℚ)) : Option String × ℚ :=
  templates.foldl
    (fun acc nt =>
      match nt.2 with
      | some score => if score > acc.2 then (some nt.1, score) else acc
      | none => acc)
    ((none : Option String), (0 : ℚ))

def classify_by_template (templates : List (String × Option ℚ)) :
    Option ClassificationResult :=
  if templates.isEmpty then none
  else
    match (templateBest templates).1 with
    | some name =>
      if (templateBest templates).2 ≥ 0.4 then
        some ⟨name, (templateBest templates).2, "template",
          [("similarity_score", DVal.num (templateBest templates).2)], none, ""⟩
      else none
    | none => none

/-! ## The decision pipeline (`classify`) -/

/-- First 500 characters of the OCR text (`text[:500]`). -/
def textSample (text : String) : String := (text.data.take 500).asString

/-- The invoice date `classify` attaches: extracted from the full-page
    text, falling back to the header-region text when absent. -/
def resolvedDate (text header_text : String) : Option String :=
  match extract_invoice_date text with
  | some d => some d
  | none => extract_invoice_date header_text

/-- The template/keyword stage of `classify`, reached when the tax-ID match
    fails (or scores below 0.9): run both matchers, then fuse. -/
def classifyRest (doc : DocInput) (text : String) (invoice_date : Option String) :
    ClassificationResult :=
  let template_result := classify_by_template doc.templScores
  let keyword_result := classify_by_keywords text
  match template_result, keyword_result with
  | some t, some kw =>
    if t.supplier = kw.supplier then
      ⟨t.supplier, max t.confidence kw.confidence + 0.1, "hybrid",
        [("template", DVal.dict t.details), ("keywords", DVal.dict kw.details)],
        invoice_date, text⟩
    else if t.confidence > kw.confidence then
      { t with invoice_date := invoice_date, ocr_text := text }
    else { kw with invoice_date := invoice_date, ocr_text := text }
  | some t, none => { t with invoice_date := invoice_date, ocr_text := text }
  | none, some kw => { kw with invoice_date := invoice_date, ocr_text := text }
  | none, none =>
    ⟨"unknown", 0.0, "none", [("text_sample", DVal.str (textSample text))],
      invoice_date, text⟩

/-- `classify(pdf_path)`: rasterization failure is the only error path;
    otherwise tax-ID match short-circuits when its confidence is at least
    0.9, else template/keyword fusion decides. -/
def classify (doc : DocInput) : ClassificationResult :=
  match doc.rasterError with
  | some e => ⟨"unknown", 0.0, "error", [("error", DVal.str e)], none, ""⟩
  | none =>
    let text := doc.text
    let invoice_date := resolvedDate text doc.header_text
    match classify_by_nif text with
    | some result =>
      if result.confidence ≥ 0.9 then
        { result with invoice_date := invoice_date, ocr_text := text }
      else classifyRest doc text invoice_date
    | none => classifyRest doc text invoice_date

/-! ## Helper lemmas -/

theorem specialLoop_fields {textL : List Char} {nif : String}
    {cs : List (String × List String)} {r : ClassificationResult}
    (h : specialLoop textL nif cs = some r) :
    r.method = "nif" ∧ r.confidence = 0.95 := by
  induction cs with
  | nil => simp [specialLoop] at h
  | cons e rest ih =>
    rw [specialLoop] at h
    by_cases hne : ¬e.2.isEmpty
    · rw [if_pos hne] at h
      by_cases hany : e.2.any (fun kw => (reSearchS true kw textL).isSome)
      · rw [if_pos hany] at h
        cases h
        exact ⟨rfl, rfl⟩
      · rw [if_neg hany] at h
        exact ih h
    · rw [if_neg hne] at h
      cases h
      exact ⟨rfl, rfl⟩

theorem patLoop_fields {textL : List Char} {p : SupplierProfile}
    {pats : List String} {r : ClassificationResult}
    (h : patLoop textL p pats = some r) :
    r.method = "nif" ∧ r.confidence = 0.95 := by
  induction pats with
  | nil => simp [patLoop] at h
  | cons pat rest ih =>
    rw [patLoop] at h
    split at h
    · split at h
      · split at h
        · cases h
          exact specialLoop_fields (by assumption)
        · exact ih h
      · cases h
        exact ⟨rfl, rfl⟩
    · exact ih h

theorem nifEntryStep_fields {textL : List Char} {p : SupplierProfile}
    {r : ClassificationResult} (h : nifEntryStep textL p = some r) :
    r.method = "nif" ∧ r.confidence = 0.95 := by
  rw [nifEntryStep] at h
  by_cases h1 : p.name = "teofilo_gd" ∨ p.name = "teofilo_nc"
  · rw [if_pos h1] at h; cases h
  · rw [if_neg h1] at h
    by_cases h2 : p.nif = "" ∨ p.nif.length < 9
    · rw [if_pos h2] at h; cases h
    · rw [if_neg h2] at h
      exact patLoop_fields h

theorem nifLoop_fields {textL : List Char} {l : List SupplierProfile}
    {r : ClassificationResult} (h : nifLoop textL l = some r) :
    r.method = "nif" ∧ r.confidence = 0.95 := by
  induction l with
  | nil => simp [nifLoop] at h
  | cons p rest ih =>
    rw [nifLoop] at h
    cases hstep : nifEntryStep textL p with
    | some r2 =>
      rw [hstep] at h
      cases h
      exact nifEntryStep_fields hstep
    | none =>
      rw [hstep] at h
      exact ih h

theorem classify_by_nif_fields {text : String} {r : ClassificationResult}
    (h : classify_by_nif text = some r) :
    r.method = "nif" ∧ r.confidence = 0.95 :=
  nifLoop_fields h

/-! ## Claims -/

/-- **C1.**  For every OCR text in which the tax-ID matcher finds a surface
    form of some registered tax ID (i.e. `classify_by_nif` produces a
    result), `classify` returns exactly that result — with the invoice date
    and full OCR text attached — with method `nif` and confidence exactly
    0.95, for arbitrary loaded templates and regardless of the text's
    keywords: template and keyword matching are never consulted. -/
theorem claim_C1 (text header_text : String) (templ : List (String × Option ℚ))
    (r : ClassificationResult) (h : classify_by_nif text = some r) :
    r.method = "nif" ∧ r.confidence = 0.95 ∧
      classify ⟨none, text, header_text, templ⟩ =
        { r with invoice_date := resolvedDate text header_text, ocr_text := text } := by
  obtain ⟨hm, hc⟩ := classify_by_nif_fields h
  refine ⟨hm, hc, ?_⟩
  rw [classify]
  simp only [h]
  rw [if_pos (by rw [hc]; norm_num)]

/-- **C1 witness.**  The text `pt 501496912 garrafeira` contains the
    `pt`-space surface form of the soares tax ID; `classify` short-circuits
    on it regardless of templates. -/
theorem claim_C1_witness :
    (⟨"soares", 0.95, "nif", [("matched_nif", DVal.str "501496912")], none, ""⟩ :
        ClassificationResult).method = "nif" ∧
    (⟨"soares", 0.95, "nif", [("matched_nif", DVal.str "501496912")], none, ""⟩ :
        ClassificationResult).confidence = 0.95 ∧
    classify ⟨none, "pt 501496912 garrafeira", "", [("lidl", some 0.95)]⟩ =
      { (⟨"soares", 0.95, "nif", [("matched_nif", DVal.str "501496912")], none, ""⟩ :
          ClassificationResult) with
        invoice_date := resolvedDate "pt 501496912 garrafeira" "",
        ocr_text := "pt 501496912 garrafeira" } :=
  claim_C1 "pt 501496912 garrafeira" "" [("lidl", some 0.95)]
    ⟨"soares", 0.95, "nif", [("matched_nif", DVal.str "501496912")], none, ""⟩
    (by with_unfolding_all rfl)

theorem patLoop_special {textL : List Char} {p : SupplierProfile}
    {pats : List String} {sc : String × List (String × List String)}
    {r : ClassificationResult}
    (hfind : SPECIAL_CASES.find? (fun x => x.1 == p.nif) = some sc)
    (hsp : specialLoop textL p.nif sc.2 = some r)
    (hany : pats.any (fun pat => isSubstr (lowerL pat.data) textL) = true) :
    patLoop textL p pats = some r := by
  induction pats with
  | nil => simp at hany
  | cons pat rest ih =>
    rw [patLoop]
    by_cases hsub : isSubstr (lowerL pat.data) textL
    · rw [if_pos hsub]
      simp only [hfind, hsp]
    · rw [if_neg hsub]
      apply ih
      simpa [List.any_cons, hsub] using hany

/-- **C2.**  For every text containing one of the four surface forms of the
    Teófilo tax ID `500099871`: if a return-guide (`teofilo_gd`) pattern
    matches, the classification is `teofilo_gd`; if neither the `teofilo_gd`
    nor the `teofilo_nc` patterns match, it is the default `teofilo`.  Both
    carry method `nif` and confidence exactly 0.95.  Moreover, in every
    special-case list exactly one entry has no keywords and it is the last
    one checked. -/
theorem claim_C2 (text : String)
    (hsurf : (nifPatterns "500099871").any
      (fun pat => isSubstr (lowerL pat.data) text.data) = true) :
    ((["guia.*devolu", "produto.*reclamado", "produto.*devolvido"].any
        (fun kw => (reSearchS true kw text.data).isSome) = true →
      classify_by_nif text = some ⟨"teofilo_gd", 0.95, "nif",
        [("matched_nif", DVal.str "500099871"),
         ("special_type", DVal.str "teofilo_gd")], none, ""⟩) ∧
     (["guia.*devolu", "produto.*reclamado", "produto.*devolvido"].any
        (fun kw => (reSearchS true kw text.data).isSome) = false →
      ["nota.*cr[ée]dito", "c\\s*caau"].any
        (fun kw => (reSearchS true kw text.data).isSome) = false →
      classify_by_nif text = some ⟨"teofilo", 0.95, "nif",
        [("matched_nif", DVal.str "500099871")], none, ""⟩)) ∧
    SPECIAL_CASES.all (fun sc =>
      ((sc.2.filter (fun e => e.2.isEmpty)).length == 1) &&
      (sc.2.getLast?.map (fun e => e.2.isEmpty)).getD false) = true := by
  have hexp : classify_by_nif text =
      (match nifEntryStep text.data ⟨"teofilo", "500099871",
          ["teofilo", "fontainhas", "messines", "8375-127", "teofilo.pt"]⟩ with
       | some r => some r
       | none => nifLoop text.data SUPPLIERS.tail) := rfl
  have hfind : SPECIAL_CASES.find?
      (fun x => x.1 == (⟨"teofilo", "500099871",
          ["teofilo", "fontainhas", "messines", "8375-127", "teofilo.pt"]⟩ :
            SupplierProfile).nif) =
      some ("500099871",
        [("teofilo_gd", ["guia.*devolu", "produto.*reclamado", "produto.*devolvido"]),
         ("teofilo_nc", ["nota.*cr[ée]dito", "c\\s*caau"]),
         ("teofilo", [])]) := rfl
  refine ⟨⟨?_, ?_⟩, by decide⟩
  · intro hgd
    have hsp : specialLoop text.data "500099871"
        [("teofilo_gd", ["guia.*devolu", "produto.*reclamado", "produto.*devolvido"]),
         ("teofilo_nc", ["nota.*cr[ée]dito", "c\\s*caau"]),
         ("teofilo", [])] =
        some (specialResult "500099871" "teofilo_gd") := by
      rw [specialLoop, if_pos (by decide), if_pos hgd]
    have hstep : nifEntryStep text.data ⟨"teofilo", "500099871",
        ["teofilo", "fontainhas", "messines", "8375-127", "teofilo.pt"]⟩ =
        some (specialResult "500099871" "teofilo_gd") := by
      rw [nifEntryStep, if_neg (by decide), if_neg (by decide)]
      exact patLoop_special hfind hsp hsurf
    rw [hexp, hstep]
    rfl
  · intro hgd hnc
    have hsp : specialLoop text.data "500099871"
        [("teofilo_gd", ["guia.*devolu", "produto.*reclamado", "produto.*devolvido"]),
         ("teofilo_nc", ["nota.*cr[ée]dito", "c\\s*caau"]),
         ("teofilo", [])] =
        some (specialDefault "500099871" "teofilo") := by
      rw [specialLoop, if_pos (by decide), if_neg (by simp [hgd])]
      rw [specialLoop, if_pos (by decide), if_neg (by simp [hnc])]
      rw [specialLoop, if_neg (by decide)]
    have hstep : nifEntryStep text.data ⟨"teofilo", "500099871",
        ["teofilo", "fontainhas", "messines", "8375-127", "teofilo.pt"]⟩ =
        some (specialDefault "500099871" "teofilo") := by
      rw [nifEntryStep, if_neg (by decide), if_neg (by decide)]
      exact patLoop_special hfind hsp hsurf
    rw [hexp, hstep]
    rfl

/-- **C2 witness.**  A text with the space-grouped Teófilo tax ID and the
    phrase `guia de devolução` classifies as `teofilo_gd`; one with the
    plain tax ID and no disambiguating phrase classifies as `teofilo`. -/
theorem claim_C2_witness :
    classify_by_nif "fatura 500 099 871 guia de devolução" =
      some ⟨"teofilo_gd", 0.95, "nif",
        [("matched_nif", DVal.str "500099871"),
         ("special_type", DVal.str "teofilo_gd")], none, ""⟩ ∧
    classify_by_nif "recibo 500099871" =
      some ⟨"teofilo", 0.95, "nif",
        [("matched_nif", DVal.str "500099871")], none, ""⟩ :=
  ⟨(claim_C2 "fatura 500 099 871 guia de devolução" (by decide)).1.1 (by decide),
   (claim_C2 "recibo 500099871" (by decide)).1.2 (by decide) (by decide)⟩

theorem classify_by_template_fields {ts : List (String × Option ℚ)}
    {r : ClassificationResult} (h : classify_by_template ts = some r) :
    r.method = "template" := by
  rw [classify_by_template] at h
  split at h
  · cases h
  · split at h
    · split at h
      · cases h
        rfl
      · cases h
    · cases h

theorem classify_by_keywords_fields {text : String} {r : ClassificationResult}
    (h : classify_by_keywords text = some r) :
    r.method = "keywords" ∧
      r.confidence = min 0.9 (0.5 + (keywordBest text.data).2.1 * 0.4) := by
  rw [classify_by_keywords] at h
  split at h
  · split at h
    · cases h
      exact ⟨rfl, rfl⟩
    · cases h
  · cases h

/-- **C3.**  Whenever the tax-ID match fails and template and keyword
    matching both return a result naming the same supplier, `classify`
    returns that supplier with method `hybrid` and confidence exactly
    `max(templateConf, keywordConf) + 0.1` — unclamped, strictly greater
    than each individual confidence — with both sub-results nested in the
    details under the `template` and `keywords` keys. -/
theorem claim_C3 (text header_text : String) (templ : List (String × Option ℚ))
    (t k : ClassificationResult)
    (hnif : classify_by_nif text = none)
    (htm : classify_by_template templ = some t)
    (hkw : classify_by_keywords text = some k)
    (hsame : t.supplier = k.supplier) :
    classify ⟨none, text, header_text, templ⟩ =
      ⟨t.supplier, max t.confidence k.confidence + 0.1, "hybrid",
        [("template", DVal.dict t.details), ("keywords", DVal.dict k.details)],
        resolvedDate text header_text, text⟩ ∧
    t.confidence < max t.confidence k.confidence + 0.1 ∧
    k.confidence < max t.confidence k.confidence + 0.1 := by
  refine ⟨?_, ?_, ?_⟩
  · rw [classify]
    simp only [hnif]
    rw [classifyRest]
    simp only [htm, hkw]
    rw [if_pos hsame]
  · exact lt_of_le_of_lt (le_max_left _ _) (lt_add_of_pos_right _ (by norm_num))
  · exact lt_of_le_of_lt (le_max_right _ _) (lt_add_of_pos_right _ (by norm_num))

/-- **C3 witness.**  With a 0.95 template score and a full keyword match
    (confidence 0.9) on `lidl`, the hybrid confidence is
    `max(0.95, 0.9) + 0.1 = 1.05`, strictly above both and above 1. -/
theorem claim_C3_witness :
    (classify ⟨none, "lidl www.lidl.pt", "", [("lidl", some 0.95)]⟩ =
      ⟨"lidl", max (0.95 : ℚ) 0.9 + 0.1, "hybrid",
        [("template", DVal.dict [("similarity_score", DVal.num 0.95)]),
         ("keywords", DVal.dict [("matched_keywords", DVal.strList ["lidl", "www\\.lidl\\.pt"]),
                                 ("score", DVal.num 1)])],
        resolvedDate "lidl www.lidl.pt" "", "lidl www.lidl.pt"⟩) ∧
    (0.95 : ℚ) < max (0.95 : ℚ) 0.9 + 0.1 ∧
    (0.9 : ℚ) < max (0.95 : ℚ) 0.9 + 0.1 ∧
    (1 : ℚ) < max (0.95 : ℚ) 0.9 + 0.1 :=
  have h := claim_C3 "lidl www.lidl.pt" "" [("lidl", some 0.95)]
    ⟨"lidl", 0.95, "template", [("similarity_score", DVal.num 0.95)], none, ""⟩
    ⟨"lidl", 0.9, "keywords",
      [("matched_keywords", DVal.strList ["lidl", "www\\.lidl\\.pt"]),
       ("score", DVal.num 1)], none, ""⟩
    (by with_unfolding_all rfl) (by with_unfolding_all rfl)
    (by with_unfolding_all rfl) rfl
  ⟨h.1, h.2.1, h.2.2, by norm_num⟩

theorem classifyRest_method_ne_error (doc : DocInput) (text : String)
    (invoice_date : Option String) :
    (classifyRest doc text invoice_date).method ≠ "error" := by
  rw [classifyRest]
  cases htm : classify_by_template doc.templScores with
  | some t =>
    cases hkw : classify_by_keywords text with
    | some k =>
      simp only [htm, hkw]
      by_cases hs : t.supplier = k.supplier
      · rw [if_pos hs]
        show ("hybrid" : String) ≠ "error"
        decide
      · rw [if_neg hs]
        by_cases hc : t.confidence > k.confidence
        · rw [if_pos hc]
          show t.method ≠ "error"
          rw [classify_by_template_fields htm]
          decide
        · rw [if_neg hc]
          show k.method ≠ "error"
          rw [(classify_by_keywords_fields hkw).1]
          decide
    | none =>
      simp only [htm, hkw]
      show t.method ≠ "error"
      rw [classify_by_template_fields htm]
      decide
  | none =>
    cases hkw : classify_by_keywords text with
    | some k =>
      simp only [htm, hkw]
      show k.method ≠ "error"
      rw [(classify_by_keywords_fields hkw).1]
      decide
    | none =>
      simp only [htm, hkw]
      show ("none" : String) ≠ "error"
      decide

/-- **C9.**  Rasterization failure yields `supplier=unknown`,
    `confidence=0.0`, `method=error` with the message under
    `details.error`; this is the only path producing method `error`.  When
    tax-ID, template and keyword matching all fail, `classify` instead
    returns `unknown`/`none`/`0.0` with `details.text_sample` holding the
    first 500 characters of the OCR text. -/
theorem claim_C9 :
    (∀ (e text header_text : String) (templ : List (String × Option ℚ)),
      classify ⟨some e, text, header_text, templ⟩ =
        ⟨"unknown", 0.0, "error", [("error", DVal.str e)], none, ""⟩) ∧
    (∀ doc : DocInput, (classify doc).method = "error" → doc.rasterError ≠ none) ∧
    (∀ (text header_text : String) (templ : List (String × Option ℚ)),
      classify_by_nif text = none →
      classify_by_template templ = none →
      classify_by_keywords text = none →
      classify ⟨none, text, header_text, templ⟩ =
        ⟨"unknown", 0.0, "none", [("text_sample", DVal.str (textSample text))],
          resolvedDate text header_text, text⟩) := by
  refine ⟨fun e text header_text templ => rfl, ?_, ?_⟩
  · rintro ⟨re, text, header_text, templ⟩ h
    cases re with
    | some e => simp
    | none =>
      exfalso
      rw [classify] at h
      revert h
      cases hn : classify_by_nif text with
      | some r =>
        simp only [hn]
        by_cases hc : r.confidence ≥ 0.9
        · rw [if_pos hc]
          intro h'
          have hme : r.method = "error" := h'
          rw [(classify_by_nif_fields hn).1] at hme
          exact absurd hme (by decide)
        · rw [if_neg hc]
          exact classifyRest_method_ne_error _ _ _
      | none =>
        simp only [hn]
        exact classifyRest_method_ne_error _ _ _
  · intro text header_text templ h1 h2 h3
    rw [classify]
    simp only [h1]
    rw [classifyRest]
    simp only [h2, h3]

/-- **C9 witness.**  A failed rasterization with message `boom` produces
    the error result; the text `zzz qq` matches no tax ID, no template
    (none loaded) and no keywords, producing the `unknown`/`none` result. -/
theorem claim_C9_witness :
    classify ⟨some "boom", "", "", []⟩ =
      ⟨"unknown", 0.0, "error", [("error", DVal.str "boom")], none, ""⟩ ∧
    ((classify ⟨some "boom", "", "", []⟩).method = "error" →
      (⟨some "boom", "", "", []⟩ : DocInput).rasterError ≠ none) ∧
    classify ⟨none, "zzz qq", "", []⟩ =
      ⟨"unknown", 0.0, "none", [("text_sample", DVal.str (textSample "zzz qq"))],
        resolvedDate "zzz qq" "", "zzz qq"⟩ :=
  ⟨claim_C9.1 "boom" "" "" [],
   claim_C9.2.1 ⟨some "boom", "", "", []⟩,
   claim_C9.2.2 "zzz qq" "" [] (by with_unfolding_all rfl) rfl
     (by with_unfolding_all rfl)⟩

theorem kwFoldStep_none_zero (textL : List Char) (p : SupplierProfile)
    (acc : Option String × ℚ × List String) (h : acc.1 = none → acc.2.1 = 0) :
    (kwFoldStep textL acc p).1 = none → (kwFoldStep textL acc p).2.1 = 0 := by
  rw [kwFoldStep]
  split
  · dsimp only
    split
    · intro hc
      cases hc
    · exact h
  · exact h

theorem kwFold_none_zero (textL : List Char) (l : List SupplierProfile) :
    ∀ acc : Option String × ℚ × List String, (acc.1 = none → acc.2.1 = 0) →
      ((l.foldl (kwFoldStep textL) acc).1 = none →
        (l.foldl (kwFoldStep textL) acc).2.1 = 0) := by
  induction l with
  | nil => exact fun acc h => h
  | cons p rest ih =>
    intro acc h
    rw [List.foldl_cons]
    exact ih _ (kwFoldStep_none_zero textL p acc h)

theorem keywordBest_none_zero (textL : List Char) :
    (keywordBest textL).1 = none → (keywordBest textL).2.1 = 0 :=
  kwFold_none_zero textL SUPPLIERS (none, 0, []) (fun _ => rfl)

/-- **C7.**  `classify_by_keywords` returns a result exactly when the best
    per-supplier score (matched keywords over total keywords, maximised by
    strict comparison over the registry) is at least 0.30, and the reported
    confidence is then exactly `min(0.9, 0.5 + score*0.4)`, hence never
    above 0.9 even at a 100% keyword match. -/
theorem claim_C7 (text : String) :
    ((classify_by_keywords text).isSome ↔ (0.3 : ℚ) ≤ (keywordBest text.data).2.1) ∧
    (∀ r, classify_by_keywords text = some r →
      r.confidence = min 0.9 (0.5 + (keywordBest text.data).2.1 * 0.4) ∧
      r.confidence ≤ 0.9) := by
  constructor
  · rw [classify_by_keywords]
    cases hb : (keywordBest text.data).1 with
    | some name =>
      simp only [hb]
      by_cases hs : (keywordBest text.data).2.1 ≥ 0.3
      · rw [if_pos hs]
        constructor
        · intro _
          exact hs
        · intro _
          rfl
      · rw [if_neg hs]
        constructor
        · intro hfalse
          exact absurd hfalse (by decide)
        · intro hle
          exact absurd hle hs
    | none =>
      simp only [hb]
      have hz := keywordBest_none_zero text.data hb
      constructor
      · intro hfalse
        exact absurd hfalse (by decide)
      · intro hle
        rw [hz] at hle
        norm_num at hle
  · intro r hr
    rw [classify_by_keywords] at hr
    split at hr
    · split at hr
      · cases hr
        exact ⟨rfl, min_le_left _ _⟩
      · cases hr
    · cases hr

/-- **C7 witness.**  On `kiabi fidelidade` both kiabi keywords match
    (score 1), so the result exists with confidence
    `min(0.9, 0.5 + 1*0.4) = 0.9` — the cap at a 100% match. -/
theorem claim_C7_witness :
    ((classify_by_keywords "kiabi fidelidade").isSome ↔
      (0.3 : ℚ) ≤ (keywordBest "kiabi fidelidade".data).2.1) ∧
    ((⟨"kiabi", 0.9, "keywords",
        [("matched_keywords", DVal.strList ["kiabi", "fidelidade"]),
         ("score", DVal.num 1)], none, ""⟩ : ClassificationResult).confidence =
        min 0.9 (0.5 + (keywordBest "kiabi fidelidade".data).2.1 * 0.4) ∧
      (⟨"kiabi", 0.9, "keywords",
        [("matched_keywords", DVal.strList ["kiabi", "fidelidade"]),
         ("score", DVal.num 1)], none, ""⟩ : ClassificationResult).confidence ≤ 0.9) :=
  ⟨(claim_C7 "kiabi fidelidade").1,
   (claim_C7 "kiabi fidelidade").2 _ (by with_unfolding_all rfl)⟩

/-- **C4.**  Whenever the priority pass succeeds — a priority issue-date
    label occurs and the 30 characters after it contain a date that
    normalizes — `extract_invoice_date` returns that date: the
    earliest-date pass is never consulted, regardless of other dates in the
    text. -/
theorem claim_C4 (text d : String)
    (h : priorityDate (lowerL text.data) priority_keywords = some d) :
    extract_invoice_date text = some d := by
  rw [extract_invoice_date]
  simp only [h]

/-- **C4 witness.**  The priority label `data de emissão:` is followed by
    `05/03/2025`, which wins even though the lexicographically smaller
    `20250101` is among the second pass's candidates. -/
theorem claim_C4_witness :
    extract_invoice_date "total 01/01/2025 data de emissão: 05/03/2025" =
      some "20250305" ∧
    "20250101" ∈ pass2Dates (lowerL "total 01/01/2025 data de emissão: 05/03/2025".data) ∧
    lexLt "20250101".data "20250305".data = true :=
  ⟨claim_C4 "total 01/01/2025 data de emissão: 05/03/2025" "20250305"
     (by with_unfolding_all rfl),
   by decide, by decide⟩

/-- All grammar matches over the whole text with their format tags, in the
    second pass's visit order (patterns outer, matches inner). -/
def allPatMatches (tl : List Char) : List (Match × String) :=
  date_patterns.foldr
    (fun pf acc => ((findAllS false pf.1 tl).map (fun m => (m, pf.2))) ++ acc) []

theorem pass2Inner_eq (tl : List Char) (fmt : String) (ms : List Match) :
    ∀ acc : List String,
      ms.foldl
        (fun acc2 m =>
          if avoidNear tl m.1 then acc2
          else
            match _normalize_date m.2.2 fmt with
            | some d => acc2 ++ [d]
            | none => acc2)
        acc =
      acc ++ ((ms.map (fun m => (m, fmt))).filter
          (fun mf => !avoidNear tl mf.1.1)).filterMap
        (fun mf => _normalize_date mf.1.2.2 mf.2) := by
  induction ms with
  | nil => intro acc; simp
  | cons m ms ih =>
    intro acc
    by_cases ha : avoidNear tl m.1
    · rw [List.foldl_cons, if_pos ha, ih acc]
      simp [List.filter_cons, ha]
    · have ha2 : avoidNear tl m.1 = false := by simpa using ha
      rw [List.foldl_cons, if_neg ha]
      cases hn : _normalize_date m.2.2 fmt with
      | some d =>
        simp only [hn]
        rw [ih (acc ++ [d])]
        simp [List.filter_cons, List.filterMap_cons, ha2, hn, List.append_assoc]
      | none =>
        simp only [hn]
        rw [ih acc]
        simp [List.filter_cons, List.filterMap_cons, ha2, hn]

theorem pass2Fold_eq (tl : List Char) (pfs : List (String × String)) :
    ∀ acc : List String,
      pfs.foldl
        (fun acc pf =>
          (findAllS false pf.1 tl).foldl
            (fun acc2 m =>
              if avoidNear tl m.1 then acc2
              else
                match _normalize_date m.2.2 pf.2 with
                | some d => acc2 ++ [d]
                | none => acc2)
            acc)
        acc =
      acc ++ ((pfs.foldr
          (fun pf acc => ((findAllS false pf.1 tl).map (fun m => (m, pf.2))) ++ acc)
          []).filter (fun mf => !avoidNear tl mf.1.1)).filterMap
        (fun mf => _normalize_date mf.1.2.2 mf.2) := by
  induction pfs with
  | nil => intro acc; simp
  | cons pf pfs ih =>
    intro acc
    rw [List.foldl_cons, List.foldr_cons, List.filter_append, List.filterMap_append]
    rw [pass2Inner_eq tl pf.2 (findAllS false pf.1 tl) acc]
    rw [ih]
    rw [List.append_assoc]

theorem pass2Dates_eq (tl : List Char) :
    pass2Dates tl =
      ((allPatMatches tl).filter (fun mf => !avoidNear tl mf.1.1)).filterMap
        (fun mf => _normalize_date mf.1.2.2 mf.2) := by
  rw [pass2Dates, allPatMatches]
  simpa using pass2Fold_eq tl date_patterns []

/-- **C5.**  When the priority pass produces nothing and the second pass
    has candidates, `extract_invoice_date` returns the lexicographically
    smallest surviving `YYYYMMDD` string; and the candidate list is exactly
    the grammar matches whose 50 preceding characters contain no avoid
    keyword (`vencimento`, `pagamento`, `prazo`), normalized. -/
theorem claim_C5 (text : String)
    (h1 : priorityDate (lowerL text.data) priority_keywords = none)
    (h2 : pass2Dates (lowerL text.data) ≠ []) :
    extract_invoice_date text = some (minString (pass2Dates (lowerL text.data))) ∧
    pass2Dates (lowerL text.data) =
      ((allPatMatches (lowerL text.data)).filter
        (fun mf => !avoidNear (lowerL text.data) mf.1.1)).filterMap
        (fun mf => _normalize_date mf.1.2.2 mf.2) := by
  refine ⟨?_, pass2Dates_eq _⟩
  rw [extract_invoice_date]
  simp only [h1]
  cases hp : pass2Dates (lowerL text.data) with
  | nil => exact absurd hp h2
  | cons d ds => simp only [hp]

/-- **C5 witness.**  In `ref 10/05/2025 ok vencimento 01/01/2025` the
    second date is discarded (`vencimento` precedes it within 50
    characters); the surviving candidate list is exactly `["20250510"]`
    and the result is its minimum. -/
theorem claim_C5_witness :
    (extract_invoice_date "ref 10/05/2025 ok vencimento 01/01/2025" =
      some (minString (pass2Dates
        (lowerL "ref 10/05/2025 ok vencimento 01/01/2025".data))) ∧
     pass2Dates (lowerL "ref 10/05/2025 ok vencimento 01/01/2025".data) =
      ((allPatMatches (lowerL "ref 10/05/2025 ok vencimento 01/01/2025".data)).filter
        (fun mf => !avoidNear (lowerL "ref 10/05/2025 ok vencimento 01/01/2025".data) mf.1.1)).filterMap
        (fun mf => _normalize_date mf.1.2.2 mf.2)) ∧
    pass2Dates (lowerL "ref 10/05/2025 ok vencimento 01/01/2025".data) = ["20250510"] :=
  ⟨claim_C5 "ref 10/05/2025 ok vencimento 01/01/2025"
     (by with_unfolding_all rfl) (by decide),
   by decide⟩

theorem validDate_some {year month day : Nat} {d : String}
    (h : validDate year month day = some d) :
    2020 ≤ year ∧ year ≤ 2030 ∧ 1 ≤ month ∧ month ≤ 12 ∧ 1 ≤ day ∧
      day ≤ days_in_month.getD month 0 ∧ d = dateString year month day := by
  rw [validDate] at h
  split at h
  · cases h
  · rename_i hv
    rw [not_not] at hv
    split at h
    · cases h
    · rename_i hd
      rw [not_lt] at hd
      obtain ⟨h1, h2, h3, h4, h5, h6⟩ := hv
      cases h
      exact ⟨h1, h2, h3, h4, h5, hd, rfl⟩

theorem normalize_date_some {caps : Caps} {fmt : String} {d : String}
    (h : _normalize_date caps fmt = some d) :
    ∃ year month day, 2020 ≤ year ∧ year ≤ 2030 ∧ 1 ≤ month ∧ month ≤ 12 ∧
      1 ≤ day ∧ day ≤ days_in_month.getD month 0 ∧
      d = dateString year month day := by
  rw [_normalize_date] at h
  split at h
  · split at h
    · split at h
      · cases h
      · exact ⟨_, _, _, validDate_some h⟩
    · split at h
      · exact ⟨_, _, _, validDate_some h⟩
      · split at h
        · exact ⟨_, _, _, validDate_some h⟩
        · split at h
          · dsimp only at h
            split at h
            · exact ⟨_, _, _, validDate_some h⟩
            · split at h
              · exact ⟨_, _, _, validDate_some h⟩
              · exact ⟨_, _, _, validDate_some h⟩
          · cases h
  · cases h

theorem windowDate_some {w : List Char} {pfs : List (String × String)} {d : String}
    (h : windowDate w pfs = some d) :
    ∃ caps fmt, _normalize_date caps fmt = some d := by
  induction pfs with
  | nil => simp [windowDate] at h
  | cons pf pfs ih =>
    rw [windowDate] at h
    split at h
    · split at h
      · cases h
        exact ⟨_, _, by assumption⟩
      · exact ih h
    · exact ih h

theorem priorityDate_some {tl : List Char} {kws : List String} {d : String}
    (h : priorityDate tl kws = some d) :
    ∃ caps fmt, _normalize_date caps fmt = some d := by
  induction kws with
  | nil => simp [priorityDate] at h
  | cons kw kws ih =>
    rw [priorityDate] at h
    split at h
    · split at h
      · cases h
        exact windowDate_some (by assumption)
      · exact ih h
    · exact ih h

theorem fallbackDate_some {tl : List Char} {pfs : List (String × String)} {d : String}
    (h : fallbackDate tl pfs = some d) :
    ∃ caps fmt, _normalize_date caps fmt = some d := by
  induction pfs with
  | nil => simp [fallbackDate] at h
  | cons pf pfs ih =>
    rw [fallbackDate] at h
    split at h
    · exact ⟨_, _, h⟩
    · exact ih h

theorem foldl_minString_mem (ds : List String) :
    ∀ a : String,
      ds.foldl (fun a b => if lexLt b.data a.data then b else a) a ∈ a :: ds := by
  induction ds with
  | nil => intro a; simp
  | cons b ds ih =>
    intro a
    rw [List.foldl_cons]
    rcases List.mem_cons.mp (ih (if lexLt b.data a.data then b else a)) with h1 | h2
    · rw [h1]
      split
      · exact List.mem_cons_of_mem _ (List.mem_cons_self _ _)
      · exact List.mem_cons_self _ _
    · exact List.mem_cons_of_mem _ (List.mem_cons_of_mem _ h2)

theorem minString_mem {l : List String} (h : l ≠ []) : minString l ∈ l := by
  cases l with
  | nil => exact absurd rfl h
  | cons d ds => exact foldl_minString_mem ds d

theorem pass2Dates_mem {tl : List Char} {d : String} (h : d ∈ pass2Dates tl) :
    ∃ caps fmt, _normalize_date caps fmt = some d := by
  rw [pass2Dates_eq] at h
  obtain ⟨mf, _, hn⟩ := List.mem_filterMap.mp h
  exact ⟨_, _, hn⟩

/-- **C6.**  Every non-null result of `extract_invoice_date` is an
    8-character zero-padded `YYYYMMDD` string with year in [2020, 2030],
    month in [1, 12] and day at least 1 and at most the days-in-month table
    entry (February capped at 29); failing candidates yield no match, not
    an error. -/
theorem claim_C6 (text d : String) (h : extract_invoice_date text = some d) :
    ∃ year month day, 2020 ≤ year ∧ year ≤ 2030 ∧ 1 ≤ month ∧ month ≤ 12 ∧
      1 ≤ day ∧ day ≤ days_in_month.getD month 0 ∧
      d = dateString year month day ∧ d.length = 8 := by
  have hnorm : ∃ caps fmt, _normalize_date caps fmt = some d := by
    rw [extract_invoice_date] at h
    split at h
    · cases h
      exact priorityDate_some (by assumption)
    · split at h
      · exact fallbackDate_some h
      · cases h
        apply pass2Dates_mem
        rename_i hp
        rw [hp]
        exact minString_mem (by simp)
  obtain ⟨caps, fmt, hn⟩ := hnorm
  obtain ⟨y, m, dd, h1, h2, h3, h4, h5, h6, h7⟩ := normalize_date_some hn
  exact ⟨y, m, dd, h1, h2, h3, h4, h5, h6, h7, by rw [h7]; rfl⟩

/-- **C6 witness.**  The extracted date `20250501` (from `01/05/2025`)
    satisfies the validity gate and is 8 characters long. -/
theorem claim_C6_witness :
    ∃ year month day, 2020 ≤ year ∧ year ≤ 2030 ∧ 1 ≤ month ∧ month ≤ 12 ∧
      1 ≤ day ∧ day ≤ days_in_month.getD month 0 ∧
      "20250501" = dateString year month day ∧ ("20250501" : String).length = 8 :=
  claim_C6 "01/05/2025" "20250501" (by with_unfolding_all rfl)

set_option maxHeartbeats 16000000 in
/-- **C8.**  End-to-end: for the OCR text
    `novadis alfarrobeira data de emissão: 10/02/2025` with no templates
    loaded, `classify` yields supplier `novadis` by keywords (no registered
    tax-ID surface form occurs, so the tax-ID match is `none`) with invoice
    date `20250210` — the ambiguous `10/02/2025` resolved day-first. -/
theorem claim_C8 :
    (classify ⟨none, "novadis alfarrobeira data de emissão: 10/02/2025", "", []⟩).supplier
      = "novadis" ∧
    (classify ⟨none, "novadis alfarrobeira data de emissão: 10/02/2025", "", []⟩).method
      = "keywords" ∧
    (classify ⟨none, "novadis alfarrobeira data de emissão: 10/02/2025", "", []⟩).invoice_date
      = some "20250210" ∧
    classify_by_nif "novadis alfarrobeira data de emissão: 10/02/2025" = none := by
  have h : classify ⟨none, "novadis alfarrobeira data de emissão: 10/02/2025", "", []⟩ =
      ⟨"novadis", 0.7, "keywords",
        [("matched_keywords", DVal.strList ["novadis", "alfarrobeira"]),
         ("score", DVal.num 0.5)],
        some "20250210", "novadis alfarrobeira data de emissão: 10/02/2025"⟩ := by
    with_unfolding_all rfl
  exact ⟨by rw [h], by rw [h], by rw [h], by with_unfolding_all rfl⟩

theorem patLoop_none {textL : List Char} {p : SupplierProfile} {pats : List String}
    (h : ∀ pat ∈ pats, isSubstr (lowerL pat.data) textL = false) :
    patLoop textL p pats = none := by
  induction pats with
  | nil => rfl
  | cons pat rest ih =>
    rw [patLoop, if_neg (by simp [h pat (List.mem_cons_self pat rest)])]
    exact ih (fun q hq => h q (List.mem_cons_of_mem _ hq))

theorem nifLoop_append_none {textL : List Char} {l1 l2 : List SupplierProfile}
    (h : ∀ p ∈ l1, nifEntryStep textL p = none) :
    nifLoop textL (l1 ++ l2) = nifLoop textL l2 := by
  induction l1 with
  | nil => rfl
  | cons p rest ih =>
    rw [List.cons_append, nifLoop, h p (List.mem_cons_self p rest)]
    exact ih (fun q hq => h q (List.mem_cons_of_mem _ hq))

/-- **C10.**  The all-zero placeholder tax ID `000000000` is not excluded
    from tax-ID matching (only empty or shorter-than-9-character IDs are
    skipped): for every text containing `000000000` and no surface form of
    any other registered tax ID, `classify_by_nif` returns `padoca` — the
    first registry entry with that tax ID, ahead of `kiabi` — with method
    `nif` and confidence 0.95. -/
theorem claim_C10 (text : String)
    (h0 : isSubstr (lowerL "000000000".data) text.data = true)
    (h1 : ∀ p ∈ SUPPLIERS, p.nif ≠ "000000000" → 9 ≤ p.nif.length →
      ∀ pat ∈ nifPatterns p.nif, isSubstr (lowerL pat.data) text.data = false) :
    classify_by_nif text =
      some ⟨"padoca", 0.95, "nif", [("matched_nif", DVal.str "000000000")], none, ""⟩ := by
  have hne : ∀ q ∈ SUPPLIERS.take 57, q.nif ≠ "000000000" := by decide
  have hpre : ∀ p ∈ SUPPLIERS.take 57, nifEntryStep text.data p = none := by
    intro p hp
    rw [nifEntryStep]
    by_cases hskip : p.name = "teofilo_gd" ∨ p.name = "teofilo_nc"
    · rw [if_pos hskip]
    · rw [if_neg hskip]
      by_cases hshort : p.nif = "" ∨ p.nif.length < 9
      · rw [if_pos hshort]
      · rw [if_neg hshort]
        exact patLoop_none
          (h1 p (List.take_subset 57 SUPPLIERS hp) (hne p hp)
            (not_lt.mp (not_or.mp hshort).2))
  rw [classify_by_nif]
  conv_lhs => rw [← List.take_append_drop 57 SUPPLIERS]
  rw [nifLoop_append_none hpre]
  rw [show SUPPLIERS.drop 57 =
      (⟨"padoca", "000000000", ["padoca", "costa.*leitas", "las.*arcos"]⟩ : SupplierProfile)
        :: SUPPLIERS.drop 58 from rfl]
  rw [nifLoop]
  have hstep : nifEntryStep text.data
      ⟨"padoca", "000000000", ["padoca", "costa.*leitas", "las.*arcos"]⟩ =
      some ⟨"padoca", 0.95, "nif", [("matched_nif", DVal.str "000000000")], none, ""⟩ := by
    rw [nifEntryStep, if_neg (by decide), if_neg (by decide)]
    rw [show nifPatterns "000000000" =
        ["000000000", "000 000 000", "pt000000000", "pt 000000000"] from rfl]
    rw [patLoop, if_pos h0]
    rfl
  rw [hstep]

/-- **C10 witness.**  `recibo 000000000 loja` contains the placeholder tax
    ID and no other registered tax-ID surface form, and is classified as
    `padoca` by tax ID. -/
theorem claim_C10_witness :
    classify_by_nif "recibo 000000000 loja" =
      some ⟨"padoca", 0.95, "nif", [("matched_nif", DVal.str "000000000")], none, ""⟩ :=
  claim_C10 "recibo 000000000 loja" (by decide) (by decide)

end InvoiceClassifier

